import Mathlib

/-!
Verification of the waveform data model of scopehal (src/scopehal/Waveform.h).

The waveform classes are translated directly from the source. The
AcceleratorBuffer primitive they are built on is declared in
AcceleratorBuffer.h, which is part of the repository but not among the staged
source files; its operations are therefore modelled from the spec's contract
for the dual-residency buffer (spec section 4.1), with the CPU-visible and
GPU-visible contents kept as two explicit lists and the residency state as the
spec's four-state machine.
-/

namespace Scopehal

/-- Modelled from the spec: the access-hint options of the dual-residency
buffer, `{NEVER, LIKELY, ALWAYS}` (spec section 4.1, `setCpuAccessHint`).
`AcceleratorBuffer.h` is not among the staged sources. -/
inductive AccessHint where
  | HINT_NEVER
  | HINT_LIKELY
  | HINT_ALWAYS
deriving DecidableEq, Repr

/-- Modelled from the spec: the conceptual per-buffer residency state machine,
states `{Uninitialized, CpuValid, GpuValid, BothValid}` (spec section 4.1).
`NeitherValid` stands for the state the spec names for a buffer valid in
neither domain. -/
inductive Residency where
  | NeitherValid
  | CpuValid
  | GpuValid
  | BothValid
deriving DecidableEq, Repr

/-- Modelled from the spec: the dual-residency buffer primitive
(`AcceleratorBuffer<T>` in the source, declared in `AcceleratorBuffer.h` which
is not among the staged sources). The CPU-visible and GPU-visible contents are
kept as two explicit lists; `residency` says which domain currently holds
valid data. -/
structure AcceleratorBuffer (T : Type) where
  cpuData : List T
  gpuData : List T
  residency : Residency
  cpuAccessHint : AccessHint
  gpuAccessHint : AccessHint
deriving DecidableEq, Repr

namespace AcceleratorBuffer

variable {T : Type}

/-- Modelled from the spec: a freshly constructed buffer is empty and valid in
neither domain. The spec does not fix the initial access hints; `HINT_NEVER`
is chosen here and no claim depends on the choice. -/
def init : AcceleratorBuffer T :=
  { cpuData := []
    gpuData := []
    residency := Residency.NeitherValid
    cpuAccessHint := AccessHint.HINT_NEVER
    gpuAccessHint := AccessHint.HINT_NEVER }

/-- The buffer's length, read off the CPU-side contents (all modelled
operations keep the two domains at equal length). -/
def size (b : AcceleratorBuffer T) : Nat :=
  b.cpuData.length

/-- Resize a list to exactly `n` elements, keeping a prefix of the old
contents and padding with `default`: the spec leaves the content of indices
beyond the prior length unspecified (spec section 4.1, `resize`). -/
def listResize [Inhabited T] (xs : List T) (n : Nat) : List T :=
  xs.take n ++ List.replicate (n - xs.length) default

/-- Modelled from the spec: `resize(n)` changes the length to `n`; the state
is reset conservatively to the neither-domain-valid state (spec section 4.1:
`resize`/`clear` reset state conservatively). -/
def resize [Inhabited T] (b : AcceleratorBuffer T) (n : Nat) : AcceleratorBuffer T :=
  { b with
    cpuData := listResize b.cpuData n
    gpuData := listResize b.gpuData n
    residency := Residency.NeitherValid }

/-- Modelled from the spec: `clear()` is resize to 0 (spec section 4.1). -/
def clear [Inhabited T] (b : AcceleratorBuffer T) : AcceleratorBuffer T :=
  b.resize 0

/-- Modelled from the spec: `prepareForCpuAccess()` ensures the CPU copy is
valid, copying from the GPU side exactly when the CPU copy is stale; it is a
no-op from `CpuValid`/`BothValid` and has no effect on GPU validity
(spec section 4.1). -/
def PrepareForCpuAccess (b : AcceleratorBuffer T) : AcceleratorBuffer T :=
  match b.residency with
  | Residency.GpuValid => { b with cpuData := b.gpuData, residency := Residency.BothValid }
  | Residency.NeitherValid => { b with residency := Residency.CpuValid }
  | _ => b

/-- Modelled from the spec: symmetric counterpart of `PrepareForCpuAccess`
(spec section 4.1). -/
def PrepareForGpuAccess (b : AcceleratorBuffer T) : AcceleratorBuffer T :=
  match b.residency with
  | Residency.CpuValid => { b with gpuData := b.cpuData, residency := Residency.BothValid }
  | Residency.NeitherValid => { b with residency := Residency.GpuValid }
  | _ => b

/-- Modelled from the spec: `markModifiedFromCpu()` declares the CPU domain
authoritative and the GPU domain stale, without copying (spec section 4.1). -/
def MarkModifiedFromCpu (b : AcceleratorBuffer T) : AcceleratorBuffer T :=
  { b with residency := Residency.CpuValid }

/-- Modelled from the spec: mirror of `MarkModifiedFromCpu`. -/
def MarkModifiedFromGpu (b : AcceleratorBuffer T) : AcceleratorBuffer T :=
  { b with residency := Residency.GpuValid }

/-- Modelled from the spec: `copyFrom(other)` bulk-overwrites this buffer's
contents with `other`'s, for the current length; the caller must have
pre-sized `this` to match `other` (spec section 4.1). -/
def CopyFrom [Inhabited T] (b rhs : AcceleratorBuffer T) : AcceleratorBuffer T :=
  { b with cpuData := listResize rhs.cpuData b.cpuData.length }

/-- Modelled from the spec: configuration of the CPU-side allocation strategy;
affects allocation, not the correctness of the state machine
(spec section 4.1). -/
def SetCpuAccessHint (b : AcceleratorBuffer T) (h : AccessHint) : AcceleratorBuffer T :=
  { b with cpuAccessHint := h }

/-- Modelled from the spec: configuration of the GPU-side allocation
strategy. -/
def SetGpuAccessHint (b : AcceleratorBuffer T) (h : AccessHint) : AcceleratorBuffer T :=
  { b with gpuAccessHint := h }

/-- Modelled from the spec: one direct indexed write on the CPU side (the
producer interface of spec section 6: direct indexed writes to
offsets/durations/samples). -/
def writeCpu (b : AcceleratorBuffer T) (i : Nat) (v : T) : AcceleratorBuffer T :=
  { b with cpuData := b.cpuData.set i v }

/-- A sequence of direct indexed CPU-side writes, applied left to right. -/
def applyWrites (b : AcceleratorBuffer T) (ws : List (Nat × T)) : AcceleratorBuffer T :=
  ws.foldl (fun a p => a.writeCpu p.1 p.2) b

/-- The buffer's CPU copy is currently valid. -/
def IsCpuValid (b : AcceleratorBuffer T) : Prop :=
  b.residency = Residency.CpuValid ∨ b.residency = Residency.BothValid

instance (b : AcceleratorBuffer T) : Decidable b.IsCpuValid := by
  unfold IsCpuValid
  infer_instance

end AcceleratorBuffer

/-- Modelled from the spec: the color palette service (consumed by the core
only for the default error sentinel, spec section 6); `StandardColors.h` is
not among the staged sources. Only the sentinel error color matters here. -/
inductive GdkColor where
  | colorError
  | colorOther (name : String)
deriving DecidableEq, Repr

/-- The indices of the standard color palette that this core uses
(`StandardColors::COLOR_ERROR` in the source). -/
inductive StdColorIndex where
  | COLOR_ERROR
deriving DecidableEq, Repr

/-- Modelled from the spec: the palette lookup `StandardColors::colors[...]`;
it supplies a fixed sentinel error color. -/
def StandardColors.colors : StdColorIndex → GdkColor
  | StdColorIndex.COLOR_ERROR => GdkColor.colorError

/-- `WAVEFORM_CLIPPING` flag bit (Waveform.h line 127). -/
def WAVEFORM_CLIPPING : Nat := 1

/-- `WaveformBase` (Waveform.h lines 53-198): all waveform metadata plus the
two timestamp buffers. C integer fields are modelled as `Int` (`int64_t`,
`time_t`) and `Nat` (`uint8_t`, `uint64_t`); the fields are public in the
source, so arbitrary states are constructible. -/
structure WaveformBase where
  m_timescale : Int
  m_startTimestamp : Int
  m_startFemtoseconds : Int
  m_triggerPhase : Int
  m_densePacked : Bool
  m_flags : Nat
  m_revision : Nat
  m_offsets : AcceleratorBuffer Int
  m_durations : AcceleratorBuffer Int
deriving DecidableEq, Repr

namespace WaveformBase

/-- The `WaveformBase()` constructor (Waveform.h lines 56-67): zeroes every
metadata field and calls `PrepareForCpuAccess` on both timestamp buffers. -/
def init : WaveformBase :=
  { m_timescale := 0
    m_startTimestamp := 0
    m_startFemtoseconds := 0
    m_triggerPhase := 0
    m_densePacked := false
    m_flags := 0
    m_revision := 0
    m_offsets := AcceleratorBuffer.init.PrepareForCpuAccess
    m_durations := AcceleratorBuffer.init.PrepareForCpuAccess }

/-- `WaveformBase::clear` (lines 136-140): clears both timestamp buffers. -/
def clear (w : WaveformBase) : WaveformBase :=
  { w with m_offsets := w.m_offsets.clear, m_durations := w.m_durations.clear }

/-- `WaveformBase::Resize` (lines 142-146): resizes both timestamp buffers. -/
def Resize (w : WaveformBase) (size : Nat) : WaveformBase :=
  { w with m_offsets := w.m_offsets.resize size, m_durations := w.m_durations.resize size }

/-- `WaveformBase::GetText` (lines 148-151): the default decode hook returns
the fixed sentinel string; it reads nothing and writes nothing, which the
model records by returning the receiver unchanged alongside the string. -/
def GetText (w : WaveformBase) (_i : Nat) : String × WaveformBase :=
  ("(unimplemented)", w)

/-- `WaveformBase::GetColor` (lines 153-156): the default decode hook returns
the palette's fixed error color, leaving the receiver unchanged. -/
def GetColor (w : WaveformBase) (_i : Nat) : GdkColor × WaveformBase :=
  (StandardColors.colors StdColorIndex.COLOR_ERROR, w)

/-- `WaveformBase::PrepareForCpuAccess` (lines 158-162). -/
def PrepareForCpuAccess (w : WaveformBase) : WaveformBase :=
  { w with
    m_offsets := w.m_offsets.PrepareForCpuAccess
    m_durations := w.m_durations.PrepareForCpuAccess }

/-- `WaveformBase::PrepareForGpuAccess` (lines 164-168). -/
def PrepareForGpuAccess (w : WaveformBase) : WaveformBase :=
  { w with
    m_offsets := w.m_offsets.PrepareForGpuAccess
    m_durations := w.m_durations.PrepareForGpuAccess }

/-- `WaveformBase::CopyTimestamps` (lines 175-179): copies offsets and
durations from `rhs`; the receiver must have been resized to match first. -/
def CopyTimestamps (w rhs : WaveformBase) : WaveformBase :=
  { w with
    m_offsets := w.m_offsets.CopyFrom rhs.m_offsets
    m_durations := w.m_durations.CopyFrom rhs.m_durations }

/-- `WaveformBase::MarkSamplesModifiedFromCpu` (lines 181-184): empty body. -/
def MarkSamplesModifiedFromCpu (w : WaveformBase) : WaveformBase :=
  w

/-- `WaveformBase::MarkSamplesModifiedFromGpu` (lines 186-188): empty body. -/
def MarkSamplesModifiedFromGpu (w : WaveformBase) : WaveformBase :=
  w

/-- `WaveformBase::MarkTimestampsModifiedFromCpu` (lines 190-193): empty
body. -/
def MarkTimestampsModifiedFromCpu (w : WaveformBase) : WaveformBase :=
  w

/-- `WaveformBase::MarkTimestampsModifiedFromGpu` (lines 195-197): empty
body. -/
def MarkTimestampsModifiedFromGpu (w : WaveformBase) : WaveformBase :=
  w

end WaveformBase

/-- `Waveform<S>` (Waveform.h lines 203-268): the base metadata and timestamp
buffers plus the sample buffer. -/
structure Waveform (S : Type) extends WaveformBase where
  m_samples : AcceleratorBuffer S
deriving DecidableEq, Repr

namespace Waveform

variable {S : Type}

/-- The `Waveform()` constructor (lines 208-214): the base constructor runs
first, then the sample buffer's CPU and GPU access hints are both set to
`HINT_LIKELY`. -/
def init (S : Type) : Waveform S :=
  { toWaveformBase := WaveformBase.init
    m_samples :=
      (AcceleratorBuffer.init.SetCpuAccessHint AccessHint.HINT_LIKELY).SetGpuAccessHint
        AccessHint.HINT_LIKELY }

/-- `Waveform<S>::Resize` (lines 219-224): resizes offsets, durations and
samples in the same call. -/
def Resize [Inhabited S] (w : Waveform S) (size : Nat) : Waveform S :=
  { w with
    m_offsets := w.m_offsets.resize size
    m_durations := w.m_durations.resize size
    m_samples := w.m_samples.resize size }

/-- `Waveform<S>::clear` (lines 226-231): clears all three buffers. -/
def clear [Inhabited S] (w : Waveform S) : Waveform S :=
  { w with
    m_offsets := w.m_offsets.clear
    m_durations := w.m_durations.clear
    m_samples := w.m_samples.clear }

/-- `Waveform<S>::PrepareForCpuAccess` (lines 233-238): forwards to all three
buffers. -/
def PrepareForCpuAccess (w : Waveform S) : Waveform S :=
  { w with
    m_offsets := w.m_offsets.PrepareForCpuAccess
    m_durations := w.m_durations.PrepareForCpuAccess
    m_samples := w.m_samples.PrepareForCpuAccess }

/-- `Waveform<S>::PrepareForGpuAccess` (lines 240-245): forwards to all three
buffers. -/
def PrepareForGpuAccess (w : Waveform S) : Waveform S :=
  { w with
    m_offsets := w.m_offsets.PrepareForGpuAccess
    m_durations := w.m_durations.PrepareForGpuAccess
    m_samples := w.m_samples.PrepareForGpuAccess }

/-- `Waveform<S>::MarkTimestampsModifiedFromCpu` (lines 247-251): forwards
`MarkModifiedFromCpu` to both timestamp buffers. -/
def MarkTimestampsModifiedFromCpu (w : Waveform S) : Waveform S :=
  { w with
    m_offsets := w.m_offsets.MarkModifiedFromCpu
    m_durations := w.m_durations.MarkModifiedFromCpu }

/-- `Waveform<S>::MarkTimestampsModifiedFromGpu` (lines 253-257): forwards
`MarkModifiedFromGpu` to both timestamp buffers. -/
def MarkTimestampsModifiedFromGpu (w : Waveform S) : Waveform S :=
  { w with
    m_offsets := w.m_offsets.MarkModifiedFromGpu
    m_durations := w.m_durations.MarkModifiedFromGpu }

/-- `Waveform<S>::MarkSamplesModifiedFromCpu` (lines 259-262): forwards to the
sample buffer only. -/
def MarkSamplesModifiedFromCpu (w : Waveform S) : Waveform S :=
  { w with m_samples := w.m_samples.MarkModifiedFromCpu }

/-- `Waveform<S>::MarkSamplesModifiedFromGpu` (lines 264-267): forwards to the
sample buffer only. -/
def MarkSamplesModifiedFromGpu (w : Waveform S) : Waveform S :=
  { w with m_samples := w.m_samples.MarkModifiedFromGpu }

/-- `CopyTimestamps` as inherited by `Waveform<S>` from the base class: it
acts on the base part only and never mentions the sample buffer. -/
def CopyTimestamps (w : Waveform S) (rhs : WaveformBase) : Waveform S :=
  { w with toWaveformBase := w.toWaveformBase.CopyTimestamps rhs }

end Waveform

/-- `typedef Waveform<bool> DigitalWaveform` (Waveform.h line 270). -/
abbrev DigitalWaveform := Waveform Bool

/-- `typedef Waveform<std::vector<bool>> DigitalBusWaveform` (line 273). -/
abbrev DigitalBusWaveform := Waveform (List Bool)

/-- The dense-packing invariant declared by `m_densePacked` (Waveform.h lines
98-107, spec section 3): when the flag is true, every duration is 1 and the
offsets equal their index, read on the CPU-visible contents. -/
def DensePackedInv (w : WaveformBase) : Prop :=
  w.m_densePacked = true →
    (∀ i < w.m_offsets.size, w.m_offsets.cpuData.getD i 0 = (i : Int)) ∧
    (∀ i < w.m_durations.size, w.m_durations.cpuData.getD i 0 = 1)

instance (w : WaveformBase) : Decidable (DensePackedInv w) := by
  unfold DensePackedInv AcceleratorBuffer.size
  infer_instance

/-- A concrete waveform whose offsets buffer is valid in both domains: used to
observe that the base-class timestamp-marking methods do nothing. -/
def wbBoth : WaveformBase :=
  { WaveformBase.init with
    m_offsets := { WaveformBase.init.m_offsets with residency := Residency.BothValid } }

/-- A concrete waveform whose dense-packed flag is set while its offsets
violate the dense-packing layout: such a state is constructible because the
fields are public and nothing in the code checks the flag. -/
def c5bad : WaveformBase :=
  { WaveformBase.init with
    m_densePacked := true
    m_offsets := { WaveformBase.init.m_offsets with cpuData := [5] }
    m_durations := { WaveformBase.init.m_durations with cpuData := [1] } }

/-- A concrete dense-packed waveform of length 2 that satisfies the
dense-packing invariant. -/
def c5good : Waveform Int :=
  { toWaveformBase :=
      { WaveformBase.init with
        m_densePacked := true
        m_offsets := { WaveformBase.init.m_offsets with cpuData := [0, 1] }
        m_durations := { WaveformBase.init.m_durations with cpuData := [1, 1] } }
    m_samples := { AcceleratorBuffer.init with cpuData := [10, 20] } }

/-- A concrete source waveform of length 2 for the timestamp-copy scenario. -/
def c2A : WaveformBase :=
  WaveformBase.init.Resize 2

/-- A concrete destination waveform for the timestamp-copy scenario. -/
def c2B : Waveform Bool :=
  Waveform.init Bool

/-! ## Helper lemmas -/

theorem listResize_length {T : Type} [Inhabited T] (xs : List T) (n : Nat) :
    (AcceleratorBuffer.listResize xs n).length = n := by
  simp [AcceleratorBuffer.listResize]
  omega

theorem listResize_self {T : Type} [Inhabited T] (xs : List T) :
    AcceleratorBuffer.listResize xs xs.length = xs := by
  simp [AcceleratorBuffer.listResize]

theorem copyFrom_cpuData {T : Type} [Inhabited T] (b rhs : AcceleratorBuffer T)
    (h : b.cpuData.length = rhs.cpuData.length) :
    (b.CopyFrom rhs).cpuData = rhs.cpuData := by
  show AcceleratorBuffer.listResize rhs.cpuData b.cpuData.length = rhs.cpuData
  rw [h, listResize_self]

theorem prepareForGpuAccess_cpuData {T : Type} (b : AcceleratorBuffer T) :
    b.PrepareForGpuAccess.cpuData = b.cpuData := by
  rcases b with ⟨c, g, r, ch, gh⟩
  cases r <;> rfl

theorem densePackedInv_congr (w w2 : WaveformBase)
    (hdp : w2.m_densePacked = w.m_densePacked)
    (ho : w2.m_offsets.cpuData = w.m_offsets.cpuData)
    (hd : w2.m_durations.cpuData = w.m_durations.cpuData) :
    DensePackedInv w → DensePackedInv w2 := by
  intro h hb
  rw [hdp] at hb
  rcases h hb with ⟨h1, h2⟩
  refine ⟨fun i hi => ?_, fun i hi => ?_⟩
  · rw [ho]
    exact h1 i (by simpa [AcceleratorBuffer.size, ho] using hi)
  · rw [hd]
    exact h2 i (by simpa [AcceleratorBuffer.size, hd] using hi)

/-! ## The claims -/

/-- C1: for every waveform holding a sample buffer, after `Resize(n)` the
offsets, durations and samples buffers all have length `n`; for a bare
`WaveformBase`, after `Resize(n)` both timestamp buffers have length `n`. -/
theorem C1_resize_all_lengths (S : Type) [Inhabited S] (w : Waveform S)
    (wb : WaveformBase) (n : Nat) :
    (w.Resize n).m_offsets.size = n ∧
    (w.Resize n).m_durations.size = n ∧
    (w.Resize n).m_samples.size = n ∧
    (wb.Resize n).m_offsets.size = n ∧
    (wb.Resize n).m_durations.size = n :=
  ⟨listResize_length _ n, listResize_length _ n, listResize_length _ n,
    listResize_length _ n, listResize_length _ n⟩

/-- C2: for waveforms A and B with B resized to len(A), after
`B.CopyTimestamps(A)` the offsets and durations of B equal those of A
entrywise, and B's sample buffer is unchanged by the copy. -/
theorem C2_copy_timestamps (S : Type) [Inhabited S] (A : WaveformBase)
    (B : Waveform S) (n : Nat)
    (h1 : A.m_offsets.size = n) (h2 : A.m_durations.size = n) :
    ((B.Resize n).CopyTimestamps A).m_offsets.cpuData = A.m_offsets.cpuData ∧
    ((B.Resize n).CopyTimestamps A).m_durations.cpuData = A.m_durations.cpuData ∧
    ((B.Resize n).CopyTimestamps A).m_samples = (B.Resize n).m_samples := by
  refine ⟨?_, ?_, rfl⟩
  · exact copyFrom_cpuData _ _ (by
      show (AcceleratorBuffer.listResize B.m_offsets.cpuData n).length = _
      rw [listResize_length]
      exact h1.symm)
  · exact copyFrom_cpuData _ _ (by
      show (AcceleratorBuffer.listResize B.m_durations.cpuData n).length = _
      rw [listResize_length]
      exact h2.symm)

/-- Witness for C2 at a concrete input: a length-2 source and a freshly
constructed destination resized to 2. -/
theorem C2_copy_timestamps_witness :
    (c2A.m_offsets.size = 2 ∧ c2A.m_durations.size = 2) ∧
    (((c2B.Resize 2).CopyTimestamps c2A).m_offsets.cpuData = c2A.m_offsets.cpuData ∧
      ((c2B.Resize 2).CopyTimestamps c2A).m_durations.cpuData = c2A.m_durations.cpuData ∧
      ((c2B.Resize 2).CopyTimestamps c2A).m_samples = (c2B.Resize 2).m_samples) :=
  ⟨⟨by decide, by decide⟩, C2_copy_timestamps Bool c2A c2B 2 (by decide) (by decide)⟩

/-- C3 counterexample: on a bare `WaveformBase`, `MarkTimestampsModifiedFromCpu`
does NOT forward to the offsets buffer — the base-class bodies are empty, so
on a waveform whose offsets buffer is valid in both domains the method leaves
it in `BothValid` while a forwarded `MarkModifiedFromCpu` would make it
`CpuValid`. -/
theorem C3_base_mark_counterexample :
    wbBoth.MarkTimestampsModifiedFromCpu.m_offsets ≠ wbBoth.m_offsets.MarkModifiedFromCpu ∧
    wbBoth.MarkTimestampsModifiedFromGpu.m_offsets ≠ wbBoth.m_offsets.MarkModifiedFromGpu ∧
    wbBoth.MarkTimestampsModifiedFromCpu = wbBoth := by
  decide

/-- C3 (amended): on `Waveform<S>`, `MarkTimestampsModifiedFromCpu` and
`MarkTimestampsModifiedFromGpu` forward the corresponding mark to both the
offsets and durations buffers and leave the sample buffer untouched; on a
bare `WaveformBase` both methods are no-ops. -/
theorem C3_mark_timestamps_forwards (S : Type) (w : Waveform S) (wb : WaveformBase) :
    (w.MarkTimestampsModifiedFromCpu).m_offsets = w.m_offsets.MarkModifiedFromCpu ∧
    (w.MarkTimestampsModifiedFromCpu).m_durations = w.m_durations.MarkModifiedFromCpu ∧
    (w.MarkTimestampsModifiedFromCpu).m_samples = w.m_samples ∧
    (w.MarkTimestampsModifiedFromGpu).m_offsets = w.m_offsets.MarkModifiedFromGpu ∧
    (w.MarkTimestampsModifiedFromGpu).m_durations = w.m_durations.MarkModifiedFromGpu ∧
    (w.MarkTimestampsModifiedFromGpu).m_samples = w.m_samples ∧
    wb.MarkTimestampsModifiedFromCpu = wb ∧
    wb.MarkTimestampsModifiedFromGpu = wb :=
  ⟨rfl, rfl, rfl, rfl, rfl, rfl, rfl, rfl⟩

/-- C4: for every buffer and every sequence of CPU-side writes, the sequence
write, `markModifiedFromCpu()`, `prepareForGpuAccess()`,
`prepareForCpuAccess()` (no further writes) leaves the CPU-visible contents
identical to what was written. -/
theorem C4_sync_roundtrip (T : Type) (b : AcceleratorBuffer T) (ws : List (Nat × T)) :
    ((((b.applyWrites ws).MarkModifiedFromCpu).PrepareForGpuAccess).PrepareForCpuAccess).cpuData
      = (b.applyWrites ws).cpuData := by
  simp [AcceleratorBuffer.MarkModifiedFromCpu, AcceleratorBuffer.PrepareForGpuAccess,
    AcceleratorBuffer.PrepareForCpuAccess]

/-- C5 counterexample: the code does not enforce the dense-packing invariant.
`c5bad` has `m_densePacked = true` but `offsets[0] = 5`; moreover a waveform
satisfying the invariant loses it after `Resize(3)`, since the grown region is
not dense-packed, so the invariant is not preserved by every operation. -/
theorem C5_dense_packed_counterexample :
    (c5bad.m_densePacked = true ∧ ¬ DensePackedInv c5bad) ∧
    (DensePackedInv c5good.toWaveformBase ∧
      ¬ DensePackedInv ((c5good.Resize 3).toWaveformBase)) := by
  decide

/-- C5 (amended): the dense-packing layout is a declared obligation that the
code does not establish or enforce; once it holds, it is preserved by
`clear`, by all four modification-marking operations and by
`PrepareForGpuAccess` (none of which alter the CPU-visible timestamp
contents), but not by `Resize` or by direct writes. -/
theorem C5_dense_packed_preserved (S : Type) [Inhabited S] (w : Waveform S)
    (h : DensePackedInv w.toWaveformBase) :
    DensePackedInv (w.clear).toWaveformBase ∧
    DensePackedInv (w.MarkTimestampsModifiedFromCpu).toWaveformBase ∧
    DensePackedInv (w.MarkTimestampsModifiedFromGpu).toWaveformBase ∧
    DensePackedInv (w.MarkSamplesModifiedFromCpu).toWaveformBase ∧
    DensePackedInv (w.MarkSamplesModifiedFromGpu).toWaveformBase ∧
    DensePackedInv (w.PrepareForGpuAccess).toWaveformBase := by
  refine ⟨?_, ?_, ?_, ?_, ?_, ?_⟩
  · intro _
    refine ⟨fun i hi => absurd hi ?_, fun i hi => absurd hi ?_⟩ <;>
      simp [Waveform.clear, AcceleratorBuffer.clear, AcceleratorBuffer.resize,
        AcceleratorBuffer.size, AcceleratorBuffer.listResize]
  · exact densePackedInv_congr _ _ rfl rfl rfl h
  · exact densePackedInv_congr _ _ rfl rfl rfl h
  · exact densePackedInv_congr _ _ rfl rfl rfl h
  · exact densePackedInv_congr _ _ rfl rfl rfl h
  · exact densePackedInv_congr w.toWaveformBase (w.PrepareForGpuAccess).toWaveformBase rfl
      (prepareForGpuAccess_cpuData w.m_offsets)
      (prepareForGpuAccess_cpuData w.m_durations) h

/-- Witness for C5 at a concrete input: a length-2 dense-packed waveform. -/
theorem C5_dense_packed_preserved_witness :
    DensePackedInv c5good.toWaveformBase ∧
    (DensePackedInv (c5good.clear).toWaveformBase ∧
      DensePackedInv (c5good.MarkTimestampsModifiedFromCpu).toWaveformBase ∧
      DensePackedInv (c5good.MarkTimestampsModifiedFromGpu).toWaveformBase ∧
      DensePackedInv (c5good.MarkSamplesModifiedFromCpu).toWaveformBase ∧
      DensePackedInv (c5good.MarkSamplesModifiedFromGpu).toWaveformBase ∧
      DensePackedInv (c5good.PrepareForGpuAccess).toWaveformBase) :=
  ⟨by decide, C5_dense_packed_preserved Int c5good (by decide)⟩

/-- C6: the revision counter starts at 0 at construction and is left exactly
unchanged (hence never decreased) by every lifecycle operation: resize,
clear, both prepares, all four marks and the timestamp copy, on both
`Waveform<S>` and the bare `WaveformBase`. -/
theorem C6_revision_monotone (S : Type) [Inhabited S] (w : Waveform S)
    (wb rhs : WaveformBase) (n : Nat) :
    WaveformBase.init.m_revision = 0 ∧
    (Waveform.init S).m_revision = 0 ∧
    (w.Resize n).m_revision = w.m_revision ∧
    (w.clear).m_revision = w.m_revision ∧
    (w.PrepareForCpuAccess).m_revision = w.m_revision ∧
    (w.PrepareForGpuAccess).m_revision = w.m_revision ∧
    (w.MarkTimestampsModifiedFromCpu).m_revision = w.m_revision ∧
    (w.MarkTimestampsModifiedFromGpu).m_revision = w.m_revision ∧
    (w.MarkSamplesModifiedFromCpu).m_revision = w.m_revision ∧
    (w.MarkSamplesModifiedFromGpu).m_revision = w.m_revision ∧
    (w.CopyTimestamps rhs).m_revision = w.m_revision ∧
    (wb.Resize n).m_revision = wb.m_revision ∧
    (wb.clear).m_revision = wb.m_revision ∧
    (wb.PrepareForCpuAccess).m_revision = wb.m_revision ∧
    (wb.PrepareForGpuAccess).m_revision = wb.m_revision ∧
    (wb.MarkTimestampsModifiedFromCpu).m_revision = wb.m_revision ∧
    (wb.MarkTimestampsModifiedFromGpu).m_revision = wb.m_revision ∧
    (wb.MarkSamplesModifiedFromCpu).m_revision = wb.m_revision ∧
    (wb.MarkSamplesModifiedFromGpu).m_revision = wb.m_revision ∧
    (wb.CopyTimestamps rhs).m_revision = wb.m_revision :=
  ⟨rfl, rfl, rfl, rfl, rfl, rfl, rfl, rfl, rfl, rfl,
    rfl, rfl, rfl, rfl, rfl, rfl, rfl, rfl, rfl, rfl⟩

/-- C7: for every element type S, the `Waveform<S>` constructor sets the
sample buffer's CPU and GPU access hints both to `LIKELY`, which is distinct
from `ALWAYS`. -/
theorem C7_sample_buffer_hints (S : Type) :
    (Waveform.init S).m_samples.cpuAccessHint = AccessHint.HINT_LIKELY ∧
    (Waveform.init S).m_samples.gpuAccessHint = AccessHint.HINT_LIKELY ∧
    AccessHint.HINT_LIKELY ≠ AccessHint.HINT_ALWAYS :=
  ⟨rfl, rfl, by decide⟩

/-- C8: the default decode hooks return the fixed sentinel text
"(unimplemented)" and the palette's fixed error color for every index, and
leave the waveform state unchanged. -/
theorem C8_render_defaults (w : WaveformBase) (i j : Nat) :
    (w.GetText i).1 = "(unimplemented)" ∧
    (w.GetText i).2 = w ∧
    (w.GetColor j).1 = StandardColors.colors StdColorIndex.COLOR_ERROR ∧
    (w.GetColor j).2 = w :=
  ⟨rfl, rfl, rfl, rfl⟩

/-- C9: on a bare `WaveformBase`, `MarkSamplesModifiedFromCpu` and
`MarkSamplesModifiedFromGpu` are no-ops: the whole object, in particular the
offsets buffer, the durations buffer and every metadata field, is
unchanged. -/
theorem C9_base_mark_samples_noop (wb : WaveformBase) :
    wb.MarkSamplesModifiedFromCpu = wb ∧
    wb.MarkSamplesModifiedFromGpu = wb ∧
    wb.MarkSamplesModifiedFromCpu.m_offsets = wb.m_offsets ∧
    wb.MarkSamplesModifiedFromCpu.m_durations = wb.m_durations ∧
    wb.MarkSamplesModifiedFromGpu.m_offsets = wb.m_offsets ∧
    wb.MarkSamplesModifiedFromGpu.m_durations = wb.m_durations :=
  ⟨rfl, rfl, rfl, rfl, rfl, rfl⟩

/-- C10: the `WaveformBase` constructor zeroes every metadata field and
prepares both timestamp buffers for CPU access, so a freshly constructed
waveform has CPU-valid, length-0 timestamp buffers. -/
theorem C10_base_constructor :
    WaveformBase.init.m_timescale = 0 ∧
    WaveformBase.init.m_startTimestamp = 0 ∧
    WaveformBase.init.m_startFemtoseconds = 0 ∧
    WaveformBase.init.m_triggerPhase = 0 ∧
    WaveformBase.init.m_densePacked = false ∧
    WaveformBase.init.m_flags = 0 ∧
    WaveformBase.init.m_revision = 0 ∧
    WaveformBase.init.m_offsets = AcceleratorBuffer.init.PrepareForCpuAccess ∧
    WaveformBase.init.m_durations = AcceleratorBuffer.init.PrepareForCpuAccess ∧
    WaveformBase.init.m_offsets.IsCpuValid ∧
    WaveformBase.init.m_durations.IsCpuValid ∧
    WaveformBase.init.m_offsets.size = 0 ∧
    WaveformBase.init.m_durations.size = 0 := by
  decide

end Scopehal
